import Mathlib

/-!
Verification development for the NutriSaarthi nutrition analytics and
recommendation engine.  The definitions below are shallow embeddings of the
JavaScript source (server/src/models/Meal.js, the dashboard controller, and
server/src/services/recommendation.service.js): numbers become rationals,
JavaScript `Math.round` becomes `jsRound`, timestamps become milliseconds
since the epoch as natural numbers, and the (stable) JavaScript array sort
becomes an insertion sort.  Only the fields that the analytics rules read are
modelled; purely cosmetic response fields (message bodies, icons) are
omitted.
-/

/-- JavaScript `Math.round`: round half away from zero towards positive
infinity, i.e. `⌊q + 1/2⌋`. -/
def jsRound (q : ℚ) : ℤ := ⌊q + 1 / 2⌋

/-! ### A stable descending sort, modelling JavaScript `Array.prototype.sort`
with comparator `(a, b) => key(b) - key(a)`.  ECMAScript requires the sort to
be stable, so we model it by insertion sort ordered by `key b ≤ key a`. -/

section StableSort

variable {α : Type} {β : Type} [LinearOrder β]

/-- The "descending by key" relation used by the comparator
`(a, b) => key(b) - key(a)`. -/
def keyDescRel (key : α → β) : α → α → Prop := fun a b => key b ≤ key a

instance (key : α → β) : DecidableRel (keyDescRel key) := fun a b =>
  inferInstanceAs (Decidable (key b ≤ key a))

instance (key : α → β) : IsTotal α (keyDescRel key) :=
  ⟨fun a b => le_total (key b) (key a)⟩

instance (key : α → β) : IsTrans α (keyDescRel key) :=
  ⟨fun _ _ _ h1 h2 => le_trans h2 h1⟩

/-- Stable sort, descending in `key` — the model of the JavaScript
`array.sort((a, b) => key(b) - key(a))` calls. -/
def sortDescBy (key : α → β) (l : List α) : List α :=
  l.insertionSort (keyDescRel key)

end StableSort


/-! ### Meal records (server/src/models/Meal.js)

A meal record carries its owner, a nutrient vector (schema-validated to be
non-negative), a meal-slot tag and a consumption timestamp.  Timestamps are
modelled as milliseconds since the epoch; `toISOString`-style calendar days
are the UTC days `t / msPerDay`. -/

def msPerDay : Nat := 86400000

/-- `date.setHours(0, 0, 0, 0)` on day `d`: first millisecond of the day. -/
def startOfDayMs (d : Nat) : Nat := d * msPerDay

/-- `date.setHours(23, 59, 59, 999)` on day `d`: last millisecond of the day. -/
def endOfDayMs (d : Nat) : Nat := d * msPerDay + (msPerDay - 1)

/-- The calendar day of a timestamp (the `%Y-%m-%d` group key of
`$dateToString` / `toISOString().split('T')[0]`). -/
def dayOf (t : Nat) : Nat := t / msPerDay

structure Nutrition where
  calories : ℚ
  protein : ℚ
  carbs : ℚ
  fat : ℚ
  fiber : ℚ
  sugar : ℚ
  sodium : ℚ
deriving DecidableEq

structure MealRec where
  user : Nat
  nutrition : Nutrition
  mealType : String
  consumedAt : Nat
deriving DecidableEq

/-- Schema invariant of Meal.js: every nutrition field has a `min: 0`
validator. -/
def NutritionNonneg (n : Nutrition) : Prop :=
  0 ≤ n.calories ∧ 0 ≤ n.protein ∧ 0 ≤ n.carbs ∧ 0 ≤ n.fat ∧
    0 ≤ n.fiber ∧ 0 ≤ n.sugar ∧ 0 ≤ n.sodium

/-! ### Daily summary (`Meal.getDailySummary`) -/

structure DailySummary where
  totalCalories : ℚ
  totalProtein : ℚ
  totalCarbs : ℚ
  totalFat : ℚ
  totalFiber : ℚ
  totalSugar : ℚ
  totalSodium : ℚ
  mealCount : Nat
deriving DecidableEq

/-- The `summary[0] || { ...zeros }` default of `getDailySummary`. -/
def zeroSummary : DailySummary :=
  { totalCalories := 0, totalProtein := 0, totalCarbs := 0, totalFat := 0
  , totalFiber := 0, totalSugar := 0, totalSodium := 0, mealCount := 0 }

/-- The `$match` stage of `getDailySummary`: the record belongs to the user
and its timestamp lies in `[startOfDay, endOfDay]` of day `d`. -/
def matchesDay (u d : Nat) (m : MealRec) : Bool :=
  decide (m.user = u ∧ startOfDayMs d ≤ m.consumedAt ∧ m.consumedAt ≤ endOfDayMs d)

/-- `Meal.getDailySummary(userId, date)`: aggregate the user's records of the
calendar day with `$sum`; an empty aggregation result falls back to the
all-zero summary. -/
def getDailySummary (records : List MealRec) (u d : Nat) : DailySummary :=
  let ms := records.filter (matchesDay u d)
  if ms = [] then zeroSummary
  else
    { totalCalories := (ms.map (fun m => m.nutrition.calories)).sum
    , totalProtein := (ms.map (fun m => m.nutrition.protein)).sum
    , totalCarbs := (ms.map (fun m => m.nutrition.carbs)).sum
    , totalFat := (ms.map (fun m => m.nutrition.fat)).sum
    , totalFiber := (ms.map (fun m => m.nutrition.fiber)).sum
    , totalSugar := (ms.map (fun m => m.nutrition.sugar)).sum
    , totalSodium := (ms.map (fun m => m.nutrition.sodium)).sum
    , mealCount := ms.length }

/-! ### Calorie trends (`getCalorieTrends` in the dashboard controller)

The controller aggregates the user's records of the window
`[startOfDay start, endOfDay end]` grouped by calendar day, then fills every
day of the window with the group's sums or an all-zero point. -/

structure TrendPoint where
  date : Nat
  calories : ℚ
  protein : ℚ
  carbs : ℚ
  fat : ℚ
  mealCount : Nat
deriving DecidableEq

/-- The `$match` + `$group` key of the trend aggregation: the user's records
inside the window whose calendar day is `d`. -/
def trendGroup (records : List MealRec) (u s e d : Nat) : List MealRec :=
  records.filter (fun m =>
    decide (m.user = u ∧ startOfDayMs s ≤ m.consumedAt ∧
      m.consumedAt ≤ endOfDayMs e ∧ dayOf m.consumedAt = d))

/-- `trendMap.get(dateStr) || { ...zeros }` followed by the push in the fill
loop: the point for one calendar day.  A day with no group yields the all-zero
point (sums over the empty group are `0` and its length is `0`). -/
def trendPointFor (records : List MealRec) (u s e d : Nat) : TrendPoint :=
  let g := trendGroup records u s e d
  { date := d
  , calories := (g.map (fun m => m.nutrition.calories)).sum
  , protein := (g.map (fun m => m.nutrition.protein)).sum
  , carbs := (g.map (fun m => m.nutrition.carbs)).sum
  , fat := (g.map (fun m => m.nutrition.fat)).sum
  , mealCount := g.length }

/-- The fill loop `for (let d = startDate; d <= endDate; d.setDate(+1))`:
one point per calendar day from `s` to `e` inclusive (empty when `e < s`). -/
def buildTrend (records : List MealRec) (u s e : Nat) : List TrendPoint :=
  (List.range (e + 1 - s)).map (fun i => trendPointFor records u s e (s + i))

/-- The `summary` block of the trends response. -/
structure TrendSummary where
  totalDays : Nat
  daysWithMeals : Nat
  totalCalories : ℚ
  totalProtein : ℚ
  totalCarbs : ℚ
  totalFat : ℚ
  avgCalories : ℤ
  avgProtein : ℤ
  avgCarbs : ℤ
  avgFat : ℤ
deriving DecidableEq

/-- The summary statistics of `getCalorieTrends`: totals reduced over the
filled trend, averages rounded over `daysWithMeals || 1`. -/
def trendSummary (records : List MealRec) (u s e : Nat) : TrendSummary :=
  let filledTrends := buildTrend records u s e
  let daysWithMeals := (filledTrends.filter (fun p => decide (0 < p.mealCount))).length
  let totCal := (filledTrends.map (fun p => p.calories)).sum
  let totPro := (filledTrends.map (fun p => p.protein)).sum
  let totCarb := (filledTrends.map (fun p => p.carbs)).sum
  let totFat := (filledTrends.map (fun p => p.fat)).sum
  let denom : ℚ := if daysWithMeals = 0 then 1 else daysWithMeals
  { totalDays := filledTrends.length
  , daysWithMeals := daysWithMeals
  , totalCalories := totCal
  , totalProtein := totPro
  , totalCarbs := totCarb
  , totalFat := totFat
  , avgCalories := jsRound (totCal / denom)
  , avgProtein := jsRound (totPro / denom)
  , avgCarbs := jsRound (totCarb / denom)
  , avgFat := jsRound (totFat / denom) }

/-! ### Macro breakdown (`getMacroBreakdown` in the dashboard controller) -/

structure MacroDistribution where
  protein : ℤ
  carbs : ℤ
  fat : ℤ
deriving DecidableEq

/-- The `distribution` computation of `getMacroBreakdown`: grams are turned
into calories with the fixed factors 4/4/9 kcal per gram; each percentage is
`Math.round(caloriesFromX / totalMacroCalories * 100)`, guarded to `0` when
`totalMacroCalories` is not positive. -/
def macroDistribution (totalProtein totalCarbs totalFat : ℚ) : MacroDistribution :=
  let caloriesFromProtein := totalProtein * 4
  let caloriesFromCarbs := totalCarbs * 4
  let caloriesFromFat := totalFat * 9
  let totalMacroCalories := caloriesFromProtein + caloriesFromCarbs + caloriesFromFat
  { protein := if 0 < totalMacroCalories then
      jsRound (caloriesFromProtein / totalMacroCalories * 100) else 0
  , carbs := if 0 < totalMacroCalories then
      jsRound (caloriesFromCarbs / totalMacroCalories * 100) else 0
  , fat := if 0 < totalMacroCalories then
      jsRound (caloriesFromFat / totalMacroCalories * 100) else 0 }

/-! ### Recommendation engine (`generateDailyRecommendations` in
server/src/services/recommendation.service.js)

The evaluation context bundles the inputs the rules read: today's summary,
the daily targets, the user's goal, the current hour and the meal-slot tags
of the last 7 days' records.  A recommendation is modelled by its category,
priority and title (message/action/icon bodies are cosmetic). -/

structure Targets where
  calories : ℚ
  protein : ℚ
  carbs : ℚ
  fat : ℚ
  fiber : ℚ
  water : ℚ
deriving DecidableEq

structure Ctx where
  summary : DailySummary
  targets : Targets
  goal : String
  hour : Nat
  weeklyMeals : List String
deriving DecidableEq

structure Rec where
  category : String
  priority : Nat
  title : String
deriving DecidableEq

def PRIORITY_HIGH : Nat := 3
def PRIORITY_MEDIUM : Nat := 2
def PRIORITY_LOW : Nat := 1

/-- `caloriePercentage = (todaySummary.totalCalories / targets.calories) * 100`. -/
def caloriePercentage (ctx : Ctx) : ℚ :=
  ctx.summary.totalCalories / ctx.targets.calories * 100

/-- `proteinPercentage = (todaySummary.totalProtein / targets.protein) * 100`. -/
def proteinPercentage (ctx : Ctx) : ℚ :=
  ctx.summary.totalProtein / ctx.targets.protein * 100

/-- The calorie if/else-if chain. -/
def calorieRecs (ctx : Ctx) : List Rec :=
  if caloriePercentage ctx = 0 ∧ 10 ≤ ctx.hour then
    [{ category := "calorie", priority := PRIORITY_HIGH
     , title := "Haven't logged any meals today" }]
  else if caloriePercentage ctx < 30 ∧ 14 ≤ ctx.hour then
    [{ category := "calorie", priority := PRIORITY_HIGH
     , title := "Low calorie intake for this time of day" }]
  else if 100 < caloriePercentage ctx then
    if ctx.goal = "lose-weight" then
      [{ category := "calorie", priority := PRIORITY_HIGH
       , title := "Daily calorie target exceeded" }]
    else
      [{ category := "calorie", priority := PRIORITY_LOW
       , title := "Above your calorie target" }]
  else if 80 ≤ caloriePercentage ctx ∧ caloriePercentage ctx ≤ 100 then
    [{ category := "calorie", priority := PRIORITY_LOW
     , title := "Great calorie balance! 🎯" }]
  else []

/-- The protein if/else-if chain. -/
def proteinRecs (ctx : Ctx) : List Rec :=
  if proteinPercentage ctx < 50 ∧ 18 ≤ ctx.hour then
    [{ category := "protein", priority := PRIORITY_HIGH
     , title := "Protein intake is low" }]
  else if ctx.goal = "build-muscle" ∧ proteinPercentage ctx < 80 ∧ 15 ≤ ctx.hour then
    [{ category := "protein", priority := PRIORITY_MEDIUM
     , title := "Boost your protein for muscle gain" }]
  else []

/-- The macro-balance block (both ratio rules may fire together). -/
def balanceRecs (ctx : Ctx) : List Rec :=
  let totalMacros := ctx.summary.totalProtein + ctx.summary.totalCarbs + ctx.summary.totalFat
  if 0 < totalMacros then
    (if 70 < ctx.summary.totalCarbs / totalMacros * 100 then
      [{ category := "balance", priority := PRIORITY_MEDIUM
       , title := "High carbohydrate ratio" }]
     else []) ++
    (if 50 < ctx.summary.totalFat / totalMacros * 100 then
      [{ category := "fat", priority := PRIORITY_MEDIUM
       , title := "High fat intake" }]
     else [])
  else []

/-- Number of weekly records tagged with a given meal slot. -/
def weeklyCount (ctx : Ctx) (slot : String) : Nat :=
  (ctx.weeklyMeals.filter (fun t => decide (t = slot))).length

/-- The meal-timing block: only evaluated when the 7-day window is
non-empty (`weeklyMeals.length > 0`). -/
def timingRecs (ctx : Ctx) : List Rec :=
  if 0 < ctx.weeklyMeals.length then
    (if weeklyCount ctx "breakfast" < 3 then
      [{ category := "meal_timing", priority := PRIORITY_MEDIUM
       , title := "Breakfast skipping detected" }]
     else []) ++
    (if 10 < weeklyCount ctx "snack" then
      [{ category := "meal_timing", priority := PRIORITY_LOW
       , title := "Frequent snacking" }]
     else [])
  else []

/-- The goal-specific `switch`. -/
def goalRecs (ctx : Ctx) : List Rec :=
  if ctx.goal = "lose-weight" then
    if ctx.summary.totalFiber < ctx.targets.fiber * 0.5 then
      [{ category := "goal", priority := PRIORITY_MEDIUM
       , title := "Increase fiber intake" }]
    else []
  else if ctx.goal = "gain-weight" ∨ ctx.goal = "build-muscle" then
    if caloriePercentage ctx < 90 ∧ 20 ≤ ctx.hour then
      [{ category := "goal", priority := PRIORITY_HIGH
       , title := "Need more calories for your goal" }]
    else []
  else if ctx.goal = "maintain" then
    if |caloriePercentage ctx - 100| ≤ 10 then
      [{ category := "goal", priority := PRIORITY_LOW
       , title := "Perfect maintenance! 🎯" }]
    else []
  else []

/-- The time-based hydration reminder. -/
def hydrationRecs (ctx : Ctx) : List Rec :=
  if 12 ≤ ctx.hour ∧ ctx.hour ≤ 18 then
    [{ category := "hydration", priority := PRIORITY_LOW
     , title := "Stay hydrated" }]
  else []

/-- The accumulated recommendation list, in rule-evaluation order. -/
def evalRules (ctx : Ctx) : List Rec :=
  calorieRecs ctx ++ proteinRecs ctx ++ balanceRecs ctx ++
    timingRecs ctx ++ goalRecs ctx ++ hydrationRecs ctx

/-- `generateDailyRecommendations`: evaluate the rule battery, then
`recommendations.sort((a, b) => b.priority - a.priority)`. -/
def generateDailyRecommendations (ctx : Ctx) : List Rec :=
  sortDescBy (fun r => r.priority) (evalRules ctx)

/-! ### Meal suggestions (`getMealSuggestions` in
server/src/services/recommendation.service.js) -/

structure MealItem where
  name : String
  calories : ℚ
  protein : ℚ
  carbs : ℚ
  fat : ℚ
  tags : List String
deriving DecidableEq

/-- The static candidate catalog, keyed by meal slot. -/
def mealDatabase (mealType : String) : List MealItem :=
  if mealType = "breakfast" then
    [ { name := "Oatmeal with Fruits", calories := 300, protein := 10, carbs := 50, fat := 8, tags := ["vegetarian", "fiber-rich"] }
    , { name := "Eggs & Toast", calories := 350, protein := 18, carbs := 30, fat := 16, tags := ["high-protein"] }
    , { name := "Greek Yogurt Parfait", calories := 280, protein := 15, carbs := 35, fat := 8, tags := ["vegetarian", "high-protein"] }
    , { name := "Avocado Toast", calories := 320, protein := 8, carbs := 28, fat := 22, tags := ["vegetarian", "healthy-fats"] }
    , { name := "Protein Smoothie", calories := 350, protein := 25, carbs := 40, fat := 8, tags := ["high-protein", "quick"] }
    , { name := "Poha with Vegetables", calories := 280, protein := 6, carbs := 45, fat := 10, tags := ["vegetarian", "indian"] }
    , { name := "Idli with Sambar", calories := 250, protein := 8, carbs := 42, fat := 5, tags := ["vegetarian", "indian", "low-fat"] } ]
  else if mealType = "lunch" then
    [ { name := "Grilled Chicken Salad", calories := 450, protein := 35, carbs := 20, fat := 25, tags := ["high-protein", "low-carb"] }
    , { name := "Dal Rice Bowl", calories := 500, protein := 15, carbs := 75, fat := 12, tags := ["vegetarian", "indian"] }
    , { name := "Paneer Tikka Wrap", calories := 480, protein := 22, carbs := 45, fat := 22, tags := ["vegetarian", "indian"] }
    , { name := "Quinoa Buddha Bowl", calories := 420, protein := 18, carbs := 55, fat := 15, tags := ["vegetarian", "balanced"] }
    , { name := "Chicken Biryani", calories := 550, protein := 28, carbs := 60, fat := 20, tags := ["indian", "high-protein"] }
    , { name := "Vegetable Stir Fry", calories := 380, protein := 12, carbs := 45, fat := 16, tags := ["vegetarian", "quick"] } ]
  else if mealType = "dinner" then
    [ { name := "Grilled Fish with Vegetables", calories := 400, protein := 32, carbs := 25, fat := 18, tags := ["high-protein", "low-carb"] }
    , { name := "Chicken Curry with Roti", calories := 480, protein := 28, carbs := 45, fat := 18, tags := ["indian", "high-protein"] }
    , { name := "Palak Paneer with Rice", calories := 520, protein := 18, carbs := 55, fat := 24, tags := ["vegetarian", "indian"] }
    , { name := "Lentil Soup with Bread", calories := 350, protein := 16, carbs := 50, fat := 8, tags := ["vegetarian", "fiber-rich"] }
    , { name := "Egg Curry with Chapati", calories := 420, protein := 20, carbs := 40, fat := 18, tags := ["indian", "high-protein"] }
    , { name := "Mixed Vegetable Khichdi", calories := 380, protein := 12, carbs := 60, fat := 10, tags := ["vegetarian", "indian", "comfort"] } ]
  else if mealType = "snack" then
    [ { name := "Mixed Nuts (handful)", calories := 180, protein := 5, carbs := 8, fat := 16, tags := ["healthy-fats", "quick"] }
    , { name := "Apple with Peanut Butter", calories := 200, protein := 5, carbs := 25, fat := 10, tags := ["vegetarian", "quick"] }
    , { name := "Protein Bar", calories := 220, protein := 15, carbs := 25, fat := 8, tags := ["high-protein", "convenient"] }
    , { name := "Hummus with Carrots", calories := 150, protein := 5, carbs := 18, fat := 7, tags := ["vegetarian", "fiber-rich"] }
    , { name := "Boiled Eggs (2)", calories := 140, protein := 12, carbs := 1, fat := 10, tags := ["high-protein", "low-carb"] }
    , { name := "Chana Chaat", calories := 180, protein := 8, carbs := 28, fat := 5, tags := ["vegetarian", "indian"] } ]
  else []

/-- The dietary-preference filter: for dietType `vegetarian` or `vegan` keep
the candidates tagged `vegetarian` or `vegan`; any other dietType leaves the
pool unchanged. -/
def dietFilter (dietType : String) (meals : List MealItem) : List MealItem :=
  if dietType = "vegetarian" ∨ dietType = "vegan" then
    meals.filter (fun m =>
      decide ("vegetarian" ∈ m.tags ∨ "vegan" ∈ m.tags))
  else meals

/-- The remaining nutrition budget: `Math.max(0, target - consumed)` per
nutrient. -/
structure Remaining where
  calories : ℚ
  protein : ℚ
  carbs : ℚ
  fat : ℚ
deriving DecidableEq

def remainingOf (targets : Targets) (summary : DailySummary) : Remaining :=
  { calories := max 0 (targets.calories - summary.totalCalories)
  , protein := max 0 (targets.protein - summary.totalProtein)
  , carbs := max 0 (targets.carbs - summary.totalCarbs)
  , fat := max 0 (targets.fat - summary.totalFat) }

/-- The candidate score: start at 100; −30 when the candidate significantly
exceeds the remaining calories; +20 for protein fit; +15 / +20 goal bonuses. -/
def scoreMeal (goal : String) (remaining : Remaining) (m : MealItem) : ℤ :=
  100
    + (if remaining.calories * 1.2 < m.calories then -30 else 0)
    + (if 20 < remaining.protein ∧ 15 ≤ m.protein then 20 else 0)
    + (if goal = "lose-weight" ∧ m.calories ≤ remaining.calories * 0.4 then 15 else 0)
    + (if goal = "build-muscle" ∧ 20 ≤ m.protein then 20 else 0)

/-- One entry of the `suggestions` array: the candidate's data with its
computed `matchScore` exposed. -/
structure Suggestion where
  name : String
  calories : ℚ
  protein : ℚ
  carbs : ℚ
  fat : ℚ
  tags : List String
  matchScore : ℤ
deriving DecidableEq

def toSuggestion (goal : String) (remaining : Remaining) (m : MealItem) : Suggestion :=
  { name := m.name, calories := m.calories, protein := m.protein
  , carbs := m.carbs, fat := m.fat, tags := m.tags
  , matchScore := scoreMeal goal remaining m }

/-- `getMealSuggestions`: compute the remaining budget, filter the slot's
catalog by diet preference, score every candidate, stable-sort descending by
score and keep the top 5. -/
def getMealSuggestions (dietType goal : String) (targets : Targets)
    (summary : DailySummary) (mealType : String) : Remaining × List Suggestion :=
  let remaining := remainingOf targets summary
  let filteredMeals := dietFilter dietType (mealDatabase mealType)
  let scoredMeals := filteredMeals.map (toSuggestion goal remaining)
  let sorted := sortDescBy (fun s => s.matchScore) scoredMeals
  (remaining, sorted.take 5)

/-! ### Demonstration inputs used by witnesses -/

/-- One 500-kcal lunch record of user 1, consumed at the first millisecond of
calendar day 1. -/
def demoRecords : List MealRec :=
  [{ user := 1
   , nutrition := { calories := 500, protein := 20, carbs := 50, fat := 10
                  , fiber := 5, sugar := 3, sodium := 100 }
   , mealType := "lunch"
   , consumedAt := msPerDay }]

/-! ### Demonstration contexts for the recommendation engine -/

/-- Neutral daily targets used by the demonstration contexts. -/
def demoTargets : Targets :=
  { calories := 100, protein := 100, carbs := 100, fat := 100
  , fiber := 100, water := 8 }

/-- Mid-morning context: half the calorie target consumed, hour 9. -/
def ctxMidMorning : Ctx :=
  { summary := { totalCalories := 50, totalProtein := 0, totalCarbs := 0
               , totalFat := 0, totalFiber := 0, totalSugar := 0
               , totalSodium := 0, mealCount := 1 }
  , targets := demoTargets
  , goal := "maintain"
  , hour := 9
  , weeklyMeals := [] }

/-- A context with meals logged (`mealCount = 2`) whose calorie total is
nevertheless zero, at hour 10. -/
def ctxZeroCalories : Ctx :=
  { summary := { totalCalories := 0, totalProtein := 0, totalCarbs := 0
               , totalFat := 0, totalFiber := 0, totalSugar := 0
               , totalSodium := 0, mealCount := 2 }
  , targets := demoTargets
  , goal := "maintain"
  , hour := 10
  , weeklyMeals := [] }

/-- A context whose 7-day window is completely empty, at hour 9. -/
def ctxEmptyWeek : Ctx :=
  { summary := { totalCalories := 0, totalProtein := 0, totalCarbs := 0
               , totalFat := 0, totalFiber := 0, totalSugar := 0
               , totalSodium := 0, mealCount := 0 }
  , targets := demoTargets
  , goal := "maintain"
  , hour := 9
  , weeklyMeals := [] }

/-- A context whose 7-day window holds eleven snack records and no
breakfast. -/
def ctxSnacky : Ctx :=
  { summary := { totalCalories := 0, totalProtein := 0, totalCarbs := 0
               , totalFat := 0, totalFiber := 0, totalSugar := 0
               , totalSodium := 0, mealCount := 0 }
  , targets := demoTargets
  , goal := "maintain"
  , hour := 9
  , weeklyMeals := ["snack", "snack", "snack", "snack", "snack", "snack",
                    "snack", "snack", "snack", "snack", "snack"] }

/-- A 500-kcal candidate with no bonus-qualifying nutrition. -/
def demoCandidate500 : MealItem :=
  { name := "Demo 500 kcal meal", calories := 500, protein := 10, carbs := 50
  , fat := 20, tags := [] }

/-- Targets that keep every candidate's score at the baseline 100. -/
def bigTargets : Targets :=
  { calories := 10000, protein := 0, carbs := 0, fat := 0, fiber := 0, water := 8 }

/-! ## Lemmas and claims -/

theorem jsRound_le (q : ℚ) : (jsRound q : ℚ) ≤ q + 1 / 2 :=
  Int.floor_le _

theorem lt_jsRound (q : ℚ) : q - 1 / 2 < (jsRound q : ℚ) := by
  have h := Int.sub_one_lt_floor (q + 1 / 2)
  unfold jsRound
  linarith

theorem jsRound_zero : jsRound 0 = 0 := by
  unfold jsRound
  norm_num

section StableSortLemmas

variable {α : Type} {β : Type} [LinearOrder β]

theorem sortDescBy_perm (key : α → β) (l : List α) :
    List.Perm (sortDescBy key l) l :=
  List.perm_insertionSort _ l

theorem sortDescBy_sorted (key : α → β) (l : List α) :
    (sortDescBy key l).Pairwise (fun a b => key b ≤ key a) :=
  List.sorted_insertionSort (keyDescRel key) l

theorem filter_orderedInsert_key (key : α → β) (p : β) (x : α) (l : List α) :
    (List.orderedInsert (keyDescRel key) x l).filter (fun a => decide (key a = p))
      = if key x = p then x :: l.filter (fun a => decide (key a = p))
        else l.filter (fun a => decide (key a = p)) := by
  induction l with
  | nil =>
    by_cases h : key x = p <;> simp [List.orderedInsert, List.filter, h]
  | cons b bs ih =>
    by_cases hxb : keyDescRel key x b
    · rw [List.orderedInsert, if_pos hxb]
      by_cases h : key x = p <;> simp [List.filter, h]
    · rw [List.orderedInsert, if_neg hxb]
      have hb : key x < key b := lt_of_not_le hxb
      by_cases h : key x = p
      · have hbp : key b ≠ p := by
          intro hc
          exact absurd (hc.trans h.symm) (ne_of_gt hb)
        simp [List.filter, hbp, ih, h]
      · by_cases hbp : key b = p <;> simp [List.filter, hbp, ih, h]

/-- Stability of the sort: for each key value `p`, the elements of key `p`
appear in the output in exactly their original order. -/
theorem sortDescBy_filter (key : α → β) (p : β) (l : List α) :
    (sortDescBy key l).filter (fun a => decide (key a = p))
      = l.filter (fun a => decide (key a = p)) := by
  induction l with
  | nil => rfl
  | cons x xs ih =>
    unfold sortDescBy at ih ⊢
    rw [List.insertionSort, filter_orderedInsert_key, ih]
    by_cases h : key x = p <;> simp [List.filter, h]

end StableSortLemmas

/-! ## Claims -/

/-- **C4**: the macro analyzer computes each percentage as
`round(caloriesFromX / totalMacroCalories × 100)` with the fixed factors
4/4/9 kcal per gram; when `totalMacroCalories > 0` the three percentages sum
to a value in `[99, 101]`, and when all three gram totals are `0` every
distribution field is exactly `0`. -/
theorem macroDistribution_spec (p c f : ℚ) :
    (0 < p * 4 + c * 4 + f * 9 →
      (macroDistribution p c f).protein
          = jsRound (p * 4 / (p * 4 + c * 4 + f * 9) * 100) ∧
      (macroDistribution p c f).carbs
          = jsRound (c * 4 / (p * 4 + c * 4 + f * 9) * 100) ∧
      (macroDistribution p c f).fat
          = jsRound (f * 9 / (p * 4 + c * 4 + f * 9) * 100) ∧
      99 ≤ (macroDistribution p c f).protein + (macroDistribution p c f).carbs
            + (macroDistribution p c f).fat ∧
      (macroDistribution p c f).protein + (macroDistribution p c f).carbs
            + (macroDistribution p c f).fat ≤ 101) ∧
    (p = 0 ∧ c = 0 ∧ f = 0 → macroDistribution p c f = ⟨0, 0, 0⟩) := by
  constructor
  · intro ht
    have hp : (macroDistribution p c f).protein
        = jsRound (p * 4 / (p * 4 + c * 4 + f * 9) * 100) := by
      simp only [macroDistribution, if_pos ht]
    have hc : (macroDistribution p c f).carbs
        = jsRound (c * 4 / (p * 4 + c * 4 + f * 9) * 100) := by
      simp only [macroDistribution, if_pos ht]
    have hf : (macroDistribution p c f).fat
        = jsRound (f * 9 / (p * 4 + c * 4 + f * 9) * 100) := by
      simp only [macroDistribution, if_pos ht]
    refine ⟨hp, hc, hf, ?_, ?_⟩ <;>
    · rw [hp, hc, hf]
      have ht' : (p * 4 + c * 4 + f * 9) ≠ 0 := ne_of_gt ht
      have hsum : p * 4 / (p * 4 + c * 4 + f * 9) * 100
          + c * 4 / (p * 4 + c * 4 + f * 9) * 100
          + f * 9 / (p * 4 + c * 4 + f * 9) * 100 = 100 := by
        field_simp
        ring
      have u1 := jsRound_le (p * 4 / (p * 4 + c * 4 + f * 9) * 100)
      have u2 := jsRound_le (c * 4 / (p * 4 + c * 4 + f * 9) * 100)
      have u3 := jsRound_le (f * 9 / (p * 4 + c * 4 + f * 9) * 100)
      have l1 := lt_jsRound (p * 4 / (p * 4 + c * 4 + f * 9) * 100)
      have l2 := lt_jsRound (c * 4 / (p * 4 + c * 4 + f * 9) * 100)
      have l3 := lt_jsRound (f * 9 / (p * 4 + c * 4 + f * 9) * 100)
      have hlt : ((jsRound (p * 4 / (p * 4 + c * 4 + f * 9) * 100)
          + jsRound (c * 4 / (p * 4 + c * 4 + f * 9) * 100)
          + jsRound (f * 9 / (p * 4 + c * 4 + f * 9) * 100) : ℤ) : ℚ) < 102 := by
        push_cast
        linarith
      have hgt : (98 : ℚ) < ((jsRound (p * 4 / (p * 4 + c * 4 + f * 9) * 100)
          + jsRound (c * 4 / (p * 4 + c * 4 + f * 9) * 100)
          + jsRound (f * 9 / (p * 4 + c * 4 + f * 9) * 100) : ℤ) : ℚ) := by
        push_cast
        linarith
      have hlt' : jsRound (p * 4 / (p * 4 + c * 4 + f * 9) * 100)
          + jsRound (c * 4 / (p * 4 + c * 4 + f * 9) * 100)
          + jsRound (f * 9 / (p * 4 + c * 4 + f * 9) * 100) < (102 : ℤ) := by
        exact_mod_cast hlt
      have hgt' : (98 : ℤ) < jsRound (p * 4 / (p * 4 + c * 4 + f * 9) * 100)
          + jsRound (c * 4 / (p * 4 + c * 4 + f * 9) * 100)
          + jsRound (f * 9 / (p * 4 + c * 4 + f * 9) * 100) := by
        exact_mod_cast hgt
      omega
  · rintro ⟨rfl, rfl, rfl⟩
    norm_num [macroDistribution]

/-- Witness for C4: a concrete 50 g-protein day sums to a percentage total in
`[99, 101]`, and the all-zero day yields the all-zero distribution. -/
theorem macroDistribution_spec_witness :
    (99 ≤ (macroDistribution 50 0 0).protein + (macroDistribution 50 0 0).carbs
        + (macroDistribution 50 0 0).fat ∧
     (macroDistribution 50 0 0).protein + (macroDistribution 50 0 0).carbs
        + (macroDistribution 50 0 0).fat ≤ 101) ∧
    macroDistribution 0 0 0 = ⟨0, 0, 0⟩ :=
  ⟨⟨((macroDistribution_spec 50 0 0).1 (by norm_num)).2.2.2.1,
    ((macroDistribution_spec 50 0 0).1 (by norm_num)).2.2.2.2⟩,
   (macroDistribution_spec 0 0 0).2 ⟨rfl, rfl, rfl⟩⟩

/-- Helper: a mapped nutrient sum over records with non-negative nutrition is
non-negative. -/
theorem nutrient_sum_nonneg (l : List MealRec) (f : Nutrition → ℚ)
    (h : ∀ m ∈ l, 0 ≤ f m.nutrition) :
    0 ≤ (l.map (fun m => f m.nutrition)).sum := by
  apply List.sum_nonneg
  intro x hx
  rcases List.mem_map.1 hx with ⟨m, hm, rfl⟩
  exact h m hm

/-- **C6**: for a user/day with no matching records `getDailySummary` returns
the all-zero summary (never an absent value); in general every total equals
the sum of that nutrient over the records whose timestamp falls within the
calendar day, `mealCount` is the number of such records, and — given the
schema invariant that nutrition fields are non-negative — every total is
non-negative. -/
theorem getDailySummary_spec (records : List MealRec) (u d : Nat)
    (hnn : ∀ m ∈ records, NutritionNonneg m.nutrition) :
    (records.filter (matchesDay u d) = [] →
        getDailySummary records u d = zeroSummary) ∧
    getDailySummary records u d =
      { totalCalories :=
          ((records.filter (matchesDay u d)).map (fun m => m.nutrition.calories)).sum
      , totalProtein :=
          ((records.filter (matchesDay u d)).map (fun m => m.nutrition.protein)).sum
      , totalCarbs :=
          ((records.filter (matchesDay u d)).map (fun m => m.nutrition.carbs)).sum
      , totalFat :=
          ((records.filter (matchesDay u d)).map (fun m => m.nutrition.fat)).sum
      , totalFiber :=
          ((records.filter (matchesDay u d)).map (fun m => m.nutrition.fiber)).sum
      , totalSugar :=
          ((records.filter (matchesDay u d)).map (fun m => m.nutrition.sugar)).sum
      , totalSodium :=
          ((records.filter (matchesDay u d)).map (fun m => m.nutrition.sodium)).sum
      , mealCount := (records.filter (matchesDay u d)).length } ∧
    (0 ≤ (getDailySummary records u d).totalCalories ∧
     0 ≤ (getDailySummary records u d).totalProtein ∧
     0 ≤ (getDailySummary records u d).totalCarbs ∧
     0 ≤ (getDailySummary records u d).totalFat ∧
     0 ≤ (getDailySummary records u d).totalFiber ∧
     0 ≤ (getDailySummary records u d).totalSugar ∧
     0 ≤ (getDailySummary records u d).totalSodium) := by
  have hmem : ∀ m ∈ records.filter (matchesDay u d), NutritionNonneg m.nutrition :=
    fun m hm => hnn m (List.mem_of_mem_filter hm)
  have hstruct : getDailySummary records u d =
      { totalCalories :=
          ((records.filter (matchesDay u d)).map (fun m => m.nutrition.calories)).sum
      , totalProtein :=
          ((records.filter (matchesDay u d)).map (fun m => m.nutrition.protein)).sum
      , totalCarbs :=
          ((records.filter (matchesDay u d)).map (fun m => m.nutrition.carbs)).sum
      , totalFat :=
          ((records.filter (matchesDay u d)).map (fun m => m.nutrition.fat)).sum
      , totalFiber :=
          ((records.filter (matchesDay u d)).map (fun m => m.nutrition.fiber)).sum
      , totalSugar :=
          ((records.filter (matchesDay u d)).map (fun m => m.nutrition.sugar)).sum
      , totalSodium :=
          ((records.filter (matchesDay u d)).map (fun m => m.nutrition.sodium)).sum
      , mealCount := (records.filter (matchesDay u d)).length } := by
    by_cases h0 : records.filter (matchesDay u d) = []
    · simp [getDailySummary, h0, zeroSummary]
    · simp [getDailySummary, h0]
  refine ⟨fun h0 => by simp [getDailySummary, h0], hstruct, ?_⟩
  rw [hstruct]
  refine ⟨?_, ?_, ?_, ?_, ?_, ?_, ?_⟩ <;>
    exact nutrient_sum_nonneg _ _ (fun m hm => by
      rcases hmem m hm with ⟨h1, h2, h3, h4, h5, h6, h7⟩
      first
        | exact h1 | exact h2 | exact h3 | exact h4 | exact h5 | exact h6 | exact h7)

/-- Witness for C6: user 2 has no record on day 0 in the demonstration data,
so the summary is the all-zero one. -/
theorem getDailySummary_spec_witness :
    getDailySummary demoRecords 2 0 = zeroSummary :=
  (getDailySummary_spec demoRecords 2 0 (by
    intro m hm
    simp only [demoRecords, List.mem_singleton] at hm
    subst hm
    refine ⟨by norm_num, by norm_num, by norm_num, by norm_num, by norm_num,
      by norm_num, by norm_num⟩)).1 (by decide)

/-- Helper: if user `u` has no record on calendar day `d`, the trend group of
day `d` is empty. -/
theorem trendGroup_eq_nil (records : List MealRec) (u s e d : Nat)
    (h : records.filter
        (fun m => decide (m.user = u ∧ dayOf m.consumedAt = d)) = []) :
    trendGroup records u s e d = [] := by
  rw [List.filter_eq_nil_iff] at h
  rw [trendGroup, List.filter_eq_nil_iff]
  intro m hm
  simp only [decide_eq_true_eq] at h ⊢
  intro hc
  exact h m hm ⟨hc.1, hc.2.2.2⟩

/-- **C1**: over a window of `N = e − s + 1` calendar days, `buildTrend`
returns exactly `N` points, in ascending date order with no gaps (the `i`-th
point carries date `s + i`), and a day on which the user has no meal record
yields the all-zero point. -/
theorem buildTrend_spec (records : List MealRec) (u s e : Nat) (hse : s ≤ e) :
    (buildTrend records u s e).length = e - s + 1 ∧
    (∀ i, ∀ h : i < (buildTrend records u s e).length,
        ((buildTrend records u s e).get ⟨i, h⟩).date = s + i) ∧
    (∀ i, ∀ h : i < (buildTrend records u s e).length,
        records.filter
            (fun m => decide (m.user = u ∧ dayOf m.consumedAt = s + i)) = [] →
        (buildTrend records u s e).get ⟨i, h⟩ =
          { date := s + i, calories := 0, protein := 0, carbs := 0, fat := 0
          , mealCount := 0 }) := by
  have hlen : (buildTrend records u s e).length = e - s + 1 := by
    simp only [buildTrend, List.length_map, List.length_range]
    omega
  refine ⟨hlen, ?_, ?_⟩
  · intro i h
    simp [buildTrend, trendPointFor]
  · intro i h hday
    have hg : trendGroup records u s e (s + i) = [] :=
      trendGroup_eq_nil records u s e (s + i) hday
    simp [buildTrend, trendPointFor, hg]

/-- Witness for C1: a three-day window `[0, 2]` over the demonstration data
(one record, on day 1) yields three points. -/
theorem buildTrend_spec_witness :
    (0 : Nat) ≤ 2 ∧ (buildTrend demoRecords 1 0 2).length = 2 - 0 + 1 :=
  ⟨by decide, (buildTrend_spec demoRecords 1 0 2 (by decide)).1⟩

/-- Helper: a trend point with `mealCount = 0` carries all-zero totals, since
its aggregation group is empty. -/
theorem trendPointFor_zero (records : List MealRec) (u s e d : Nat)
    (h : (trendPointFor records u s e d).mealCount = 0) :
    (trendPointFor records u s e d).calories = 0 ∧
    (trendPointFor records u s e d).protein = 0 ∧
    (trendPointFor records u s e d).carbs = 0 ∧
    (trendPointFor records u s e d).fat = 0 := by
  have hg : trendGroup records u s e d = [] := by
    simp only [trendPointFor] at h
    exact List.length_eq_zero.1 h
  simp [trendPointFor, hg]

/-- Helper: when no day of the window is tracked, the window totals of a
nutrient are zero. -/
theorem trend_total_zero (records : List MealRec) (u s e : Nat)
    (f : TrendPoint → ℚ)
    (hf : ∀ d, (trendPointFor records u s e d).mealCount = 0 →
      f (trendPointFor records u s e d) = 0)
    (h0 : ((buildTrend records u s e).filter
        (fun p => decide (0 < p.mealCount))).length = 0) :
    ((buildTrend records u s e).map f).sum = 0 := by
  have hnil := List.length_eq_zero.1 h0
  rw [List.filter_eq_nil_iff] at hnil
  apply List.sum_eq_zero
  intro x hx
  rcases List.mem_map.1 hx with ⟨p, hp, rfl⟩
  rcases List.mem_map.1 hp with ⟨i, _, rfl⟩
  apply hf
  have := hnil _ hp
  simp only [decide_eq_true_eq, not_lt, Nat.le_zero] at this
  exact this

/-- **C5**: `totalDays` is the full window length, `daysWithMeals` counts the
tracked days (points with `mealCount > 0`), every average equals
`round(window total / daysWithMeals)` when at least one day is tracked, and a
window with zero tracked days yields averages exactly `0` (the division falls
back to denominator `1`). -/
theorem trendSummary_spec (records : List MealRec) (u s e : Nat) (hse : s ≤ e) :
    (trendSummary records u s e).totalDays = e - s + 1 ∧
    (trendSummary records u s e).daysWithMeals
      = ((buildTrend records u s e).filter (fun p => decide (0 < p.mealCount))).length ∧
    (0 < (trendSummary records u s e).daysWithMeals →
      (trendSummary records u s e).avgCalories
        = jsRound ((trendSummary records u s e).totalCalories
            / ((trendSummary records u s e).daysWithMeals : ℚ)) ∧
      (trendSummary records u s e).avgProtein
        = jsRound ((trendSummary records u s e).totalProtein
            / ((trendSummary records u s e).daysWithMeals : ℚ)) ∧
      (trendSummary records u s e).avgCarbs
        = jsRound ((trendSummary records u s e).totalCarbs
            / ((trendSummary records u s e).daysWithMeals : ℚ)) ∧
      (trendSummary records u s e).avgFat
        = jsRound ((trendSummary records u s e).totalFat
            / ((trendSummary records u s e).daysWithMeals : ℚ))) ∧
    ((trendSummary records u s e).daysWithMeals = 0 →
      (trendSummary records u s e).avgCalories = 0 ∧
      (trendSummary records u s e).avgProtein = 0 ∧
      (trendSummary records u s e).avgCarbs = 0 ∧
      (trendSummary records u s e).avgFat = 0) := by
  refine ⟨?_, ?_, ?_, ?_⟩
  · simp only [trendSummary, buildTrend, List.length_map, List.length_range]
    omega
  · simp only [trendSummary]
  · intro h
    simp only [trendSummary] at h ⊢
    rw [if_neg (Nat.pos_iff_ne_zero.1 h)]
    exact ⟨rfl, rfl, rfl, rfl⟩
  · intro h
    simp only [trendSummary] at h ⊢
    rw [if_pos h]
    have hc := trend_total_zero records u s e (fun p => p.calories)
      (fun d hd => (trendPointFor_zero records u s e d hd).1) h
    have hp := trend_total_zero records u s e (fun p => p.protein)
      (fun d hd => (trendPointFor_zero records u s e d hd).2.1) h
    have hcb := trend_total_zero records u s e (fun p => p.carbs)
      (fun d hd => (trendPointFor_zero records u s e d hd).2.2.1) h
    have hf := trend_total_zero records u s e (fun p => p.fat)
      (fun d hd => (trendPointFor_zero records u s e d hd).2.2.2) h
    rw [hc, hp, hcb, hf]
    norm_num [jsRound]

/-- Witness for C5: the demonstration data tracks exactly one of the three
window days, so the calorie average is `round(500 / 1)`. -/
theorem trendSummary_spec_witness :
    (trendSummary demoRecords 1 0 2).totalDays = 2 - 0 + 1 ∧
    (0 < (trendSummary demoRecords 1 0 2).daysWithMeals ∧
      (trendSummary demoRecords 1 0 2).avgCalories
        = jsRound ((trendSummary demoRecords 1 0 2).totalCalories
            / ((trendSummary demoRecords 1 0 2).daysWithMeals : ℚ))) :=
  ⟨(trendSummary_spec demoRecords 1 0 2 (by decide)).1,
   by decide,
   ((trendSummary_spec demoRecords 1 0 2 (by decide)).2.2.1 (by decide)).1⟩

/-- Helper: membership in the pre-sort rule output carries over to the
generator's output (the sort is a permutation). -/
theorem mem_generate_of_mem_evalRules (ctx : Ctx) (r : Rec)
    (h : r ∈ evalRules ctx) : r ∈ generateDailyRecommendations ctx := by
  unfold generateDailyRecommendations
  exact (sortDescBy_perm (fun x => x.priority) (evalRules ctx)).mem_iff.2 h

/-- **C2**: the generator's output is non-increasing in priority, and within
each priority level the original rule-evaluation order is preserved (the
final sort is stable). -/
theorem generate_sorted_stable (ctx : Ctx) :
    (generateDailyRecommendations ctx).Pairwise (fun a b => b.priority ≤ a.priority) ∧
    ∀ p : Nat,
      (generateDailyRecommendations ctx).filter (fun r => decide (r.priority = p))
        = (evalRules ctx).filter (fun r => decide (r.priority = p)) :=
  ⟨sortDescBy_sorted (fun r => r.priority) (evalRules ctx),
   fun p => sortDescBy_filter (fun r => r.priority) p (evalRules ctx)⟩

/-- Helper: the calorie if/else-if chain emits at most one recommendation. -/
theorem calorieRecs_countP_le_one (ctx : Ctx) :
    (calorieRecs ctx).countP (fun r => decide (r.category = "calorie")) ≤ 1 := by
  unfold calorieRecs
  split_ifs <;> decide

/-- Helper: no block other than the calorie chain emits a calorie-category
recommendation. -/
theorem other_blocks_no_calorie (ctx : Ctx) :
    (proteinRecs ctx).countP (fun r => decide (r.category = "calorie")) = 0 ∧
    (balanceRecs ctx).countP (fun r => decide (r.category = "calorie")) = 0 ∧
    (timingRecs ctx).countP (fun r => decide (r.category = "calorie")) = 0 ∧
    (goalRecs ctx).countP (fun r => decide (r.category = "calorie")) = 0 ∧
    (hydrationRecs ctx).countP (fun r => decide (r.category = "calorie")) = 0 := by
  refine ⟨?_, ?_, ?_, ?_, ?_⟩ <;>
    · simp only [proteinRecs, balanceRecs, timingRecs, goalRecs, hydrationRecs]
      split_ifs <;> decide

/-- Helper: the generator emits exactly as many calorie-category
recommendations as the calorie chain does. -/
theorem generate_countP_calorie (ctx : Ctx) :
    (generateDailyRecommendations ctx).countP (fun r => decide (r.category = "calorie"))
      = (calorieRecs ctx).countP (fun r => decide (r.category = "calorie")) := by
  unfold generateDailyRecommendations
  rw [(sortDescBy_perm (fun x => x.priority) (evalRules ctx)).countP_eq]
  unfold evalRules
  simp only [List.countP_append]
  rcases other_blocks_no_calorie ctx with ⟨h1, h2, h3, h4, h5⟩
  omega

/-- **C3**: a fixed evaluation yields at most one calorie-category
recommendation, and none at all when the calorie percentage lies in
`[30, 80)` and the hour is before 14. -/
theorem generate_calorie_exclusive (ctx : Ctx) :
    (generateDailyRecommendations ctx).countP (fun r => decide (r.category = "calorie")) ≤ 1 ∧
    (30 ≤ caloriePercentage ctx → caloriePercentage ctx < 80 → ctx.hour < 14 →
      (generateDailyRecommendations ctx).countP
        (fun r => decide (r.category = "calorie")) = 0) := by
  constructor
  · rw [generate_countP_calorie]
    exact calorieRecs_countP_le_one ctx
  · intro h30 h80 h14
    rw [generate_countP_calorie]
    have hnil : calorieRecs ctx = [] := by
      unfold calorieRecs
      split_ifs with h1 h2 h3 hg h4
      · exact absurd h1.1 (by intro h0; rw [h0] at h30; norm_num at h30)
      · exact absurd h2.2 (by omega)
      · exact absurd h3 (by linarith)
      · exact absurd h3 (by linarith)
      · exact absurd h4.1 (by linarith)
      · rfl
    rw [hnil]
    rfl

/-- Witness for C3: at 50% of the calorie target before 14:00 the generator
emits no calorie-category recommendation (and never more than one). -/
theorem generate_calorie_exclusive_witness :
    (generateDailyRecommendations ctxMidMorning).countP
        (fun r => decide (r.category = "calorie")) = 0 :=
  (generate_calorie_exclusive ctxMidMorning).2
    (by norm_num [caloriePercentage, ctxMidMorning, demoTargets])
    (by norm_num [caloriePercentage, ctxMidMorning, demoTargets])
    (by decide)

/-- **C9**: the HIGH "Haven't logged any meals today" recommendation is
driven by today's calorie total being zero (with hour ≥ 10), not by
`mealCount`: it is emitted even when meals were logged whose calories sum to
zero. -/
theorem zero_calorie_rec_ignores_mealCount (ctx : Ctx)
    (ht : 0 < ctx.targets.calories) (hc : ctx.summary.totalCalories = 0)
    (hh : 10 ≤ ctx.hour) (hm : 0 < ctx.summary.mealCount) :
    ({ category := "calorie", priority := PRIORITY_HIGH
     , title := "Haven't logged any meals today" } : Rec)
      ∈ generateDailyRecommendations ctx := by
  have hpct : caloriePercentage ctx = 0 := by
    unfold caloriePercentage
    rw [hc]
    simp
  apply mem_generate_of_mem_evalRules
  have hcal : calorieRecs ctx =
      [{ category := "calorie", priority := PRIORITY_HIGH
       , title := "Haven't logged any meals today" }] := by
    unfold calorieRecs
    rw [if_pos ⟨hpct, hh⟩]
  unfold evalRules
  rw [hcal]
  simp

/-- Witness for C9: the zero-calorie, two-meal context at hour 10. -/
theorem zero_calorie_rec_ignores_mealCount_witness :
    ({ category := "calorie", priority := PRIORITY_HIGH
     , title := "Haven't logged any meals today" } : Rec)
      ∈ generateDailyRecommendations ctxZeroCalories :=
  zero_calorie_rec_ignores_mealCount ctxZeroCalories (by norm_num [ctxZeroCalories, demoTargets])
    (by decide) (by decide) (by decide)

/-- **C8, counterexample**: in a context whose 7-day window is empty the
breakfast count (zero) is below 3, yet no meal-timing recommendation is
emitted — the timing rules only run when the window is non-empty. -/
theorem timing_rules_counterexample :
    (ctxEmptyWeek.weeklyMeals.filter (fun t => decide (t = "breakfast"))).length < 3 ∧
    ({ category := "meal_timing", priority := PRIORITY_MEDIUM
     , title := "Breakfast skipping detected" } : Rec)
      ∉ generateDailyRecommendations ctxEmptyWeek := by
  have h1 : calorieRecs ctxEmptyWeek = [] := by
    norm_num [calorieRecs, caloriePercentage, ctxEmptyWeek, demoTargets]
  have h2 : proteinRecs ctxEmptyWeek = [] := by
    norm_num [proteinRecs, proteinPercentage, ctxEmptyWeek, demoTargets]
  have h3 : balanceRecs ctxEmptyWeek = [] := by
    norm_num [balanceRecs, ctxEmptyWeek]
  have h4 : timingRecs ctxEmptyWeek = [] := by
    norm_num [timingRecs, ctxEmptyWeek]
  have h5 : goalRecs ctxEmptyWeek = [] := by
    norm_num [goalRecs, caloriePercentage, ctxEmptyWeek, demoTargets]
    decide
  have h6 : hydrationRecs ctxEmptyWeek = [] := by
    norm_num [hydrationRecs, ctxEmptyWeek]
  have hgen : generateDailyRecommendations ctxEmptyWeek = [] := by
    unfold generateDailyRecommendations evalRules
    rw [h1, h2, h3, h4, h5, h6]
    rfl
  constructor
  · decide
  · rw [hgen]
    exact List.not_mem_nil _

/-- Helper: membership in the timing block carries into the rule output. -/
theorem mem_evalRules_of_mem_timing (ctx : Ctx) (r : Rec)
    (h : r ∈ timingRecs ctx) : r ∈ evalRules ctx := by
  unfold evalRules
  simp only [List.mem_append]
  tauto

/-- **C8 (amended)**: provided the 7-day window contains at least one record,
fewer than 3 breakfast-tagged records yield the MEDIUM "breakfast skipping"
recommendation; and more than 10 snack-tagged records always yield the LOW
"frequent snacking" recommendation (such a window is automatically
non-empty). -/
theorem timing_rules_spec (ctx : Ctx) :
    (ctx.weeklyMeals ≠ [] → weeklyCount ctx "breakfast" < 3 →
      ({ category := "meal_timing", priority := PRIORITY_MEDIUM
       , title := "Breakfast skipping detected" } : Rec)
        ∈ generateDailyRecommendations ctx) ∧
    (10 < weeklyCount ctx "snack" →
      ({ category := "meal_timing", priority := PRIORITY_LOW
       , title := "Frequent snacking" } : Rec)
        ∈ generateDailyRecommendations ctx) := by
  constructor
  · intro hne hb
    apply mem_generate_of_mem_evalRules
    apply mem_evalRules_of_mem_timing
    unfold timingRecs
    rw [if_pos (List.length_pos.2 hne)]
    apply List.mem_append_left
    rw [if_pos hb]
    exact List.mem_singleton.2 rfl
  · intro hs
    have hlen : 0 < ctx.weeklyMeals.length :=
      lt_of_lt_of_le (Nat.lt_of_le_of_lt (Nat.zero_le _) hs)
        (List.length_filter_le _ _)
    apply mem_generate_of_mem_evalRules
    apply mem_evalRules_of_mem_timing
    unfold timingRecs
    rw [if_pos hlen]
    apply List.mem_append_right
    rw [if_pos hs]
    exact List.mem_singleton.2 rfl

/-- Witness for C8: the snack-heavy week context triggers both timing
recommendations. -/
theorem timing_rules_spec_witness :
    ({ category := "meal_timing", priority := PRIORITY_MEDIUM
     , title := "Breakfast skipping detected" } : Rec)
      ∈ generateDailyRecommendations ctxSnacky ∧
    ({ category := "meal_timing", priority := PRIORITY_LOW
     , title := "Frequent snacking" } : Rec)
      ∈ generateDailyRecommendations ctxSnacky :=
  ⟨(timing_rules_spec ctxSnacky).1 (by decide) (by decide),
   (timing_rules_spec ctxSnacky).2 (by decide)⟩

/-- **C7**: every suggestion's `matchScore` is 100 plus exactly the
applicable adjustments (−30 calorie overshoot, +20 protein fit, +15
lose-weight fit, +20 build-muscle protein); the remaining budget per nutrient
is `max 0 (target − consumed)`; and a 500-kcal candidate against a 300-kcal
remaining budget with no bonuses scores exactly 70. -/
theorem getMealSuggestions_spec (dietType goal : String) (targets : Targets)
    (summary : DailySummary) (mealType : String) (s : Suggestion)
    (hs : s ∈ (getMealSuggestions dietType goal targets summary mealType).2) :
    s.matchScore = 100
      + (if (remainingOf targets summary).calories * 1.2 < s.calories then -30 else 0)
      + (if 20 < (remainingOf targets summary).protein ∧ 15 ≤ s.protein then 20 else 0)
      + (if goal = "lose-weight" ∧ s.calories ≤ (remainingOf targets summary).calories * 0.4
          then 15 else 0)
      + (if goal = "build-muscle" ∧ 20 ≤ s.protein then 20 else 0) ∧
    (remainingOf targets summary).calories = max 0 (targets.calories - summary.totalCalories) ∧
    (remainingOf targets summary).protein = max 0 (targets.protein - summary.totalProtein) ∧
    (remainingOf targets summary).carbs = max 0 (targets.carbs - summary.totalCarbs) ∧
    (remainingOf targets summary).fat = max 0 (targets.fat - summary.totalFat) ∧
    scoreMeal "maintain"
      { calories := 300, protein := 10, carbs := 0, fat := 0 } demoCandidate500 = 70 := by
  have hs' : s ∈ sortDescBy (fun x => x.matchScore)
      ((dietFilter dietType (mealDatabase mealType)).map
        (toSuggestion goal (remainingOf targets summary))) :=
    List.mem_of_mem_take hs
  obtain ⟨m, hm, rfl⟩ :=
    List.mem_map.1 ((sortDescBy_perm (fun x : Suggestion => x.matchScore) _).mem_iff.1 hs')
  refine ⟨rfl, rfl, rfl, rfl, rfl, ?_⟩
  norm_num [scoreMeal, demoCandidate500]

/-- **C10**: the dietary filter treats `vegan` exactly like `vegetarian` — a
candidate is kept iff its tags contain `vegetarian` or `vegan` — so a vegan
user's pool retains the dairy/egg items tagged only `vegetarian` (Greek
Yogurt Parfait, Palak Paneer with Rice), and any other dietType leaves the
pool unfiltered. -/
theorem dietFilter_spec :
    (∀ l : List MealItem, dietFilter "vegan" l = dietFilter "vegetarian" l) ∧
    (∀ (l : List MealItem) (m : MealItem),
        m ∈ dietFilter "vegan" l ↔
          m ∈ l ∧ ("vegetarian" ∈ m.tags ∨ "vegan" ∈ m.tags)) ∧
    "Greek Yogurt Parfait"
        ∈ (dietFilter "vegan" (mealDatabase "breakfast")).map (fun m => m.name) ∧
    "Palak Paneer with Rice"
        ∈ (dietFilter "vegan" (mealDatabase "dinner")).map (fun m => m.name) ∧
    (∀ dietType : String, dietType ≠ "vegetarian" → dietType ≠ "vegan" →
        ∀ l : List MealItem, dietFilter dietType l = l) := by
  refine ⟨?_, ?_, ?_, ?_, ?_⟩
  · intro l
    unfold dietFilter
    rw [if_pos (Or.inr rfl), if_pos (Or.inl rfl)]
  · intro l m
    unfold dietFilter
    rw [if_pos (Or.inr rfl)]
    simp [List.mem_filter]
  · decide
  · decide
  · intro dt h1 h2 l
    unfold dietFilter
    rw [if_neg]
    rintro (h | h)
    exacts [h1 h, h2 h]

/-- Witness for C7: applying the scoring contract to the baseline-scored
oatmeal suggestion of a vegetarian breakfast query. -/
theorem getMealSuggestions_spec_witness :
    (remainingOf bigTargets zeroSummary).calories
        = max 0 (bigTargets.calories - zeroSummary.totalCalories) ∧
    scoreMeal "maintain"
      { calories := 300, protein := 10, carbs := 0, fat := 0 } demoCandidate500 = 70 := by
  have h := getMealSuggestions_spec "vegetarian" "maintain" bigTargets zeroSummary
    "breakfast"
    { name := "Oatmeal with Fruits", calories := 300, protein := 10, carbs := 50
    , fat := 8, tags := ["vegetarian", "fiber-rich"], matchScore := 100 }
    (by
      norm_num [getMealSuggestions, mealDatabase, dietFilter, remainingOf,
        toSuggestion, scoreMeal, bigTargets, zeroSummary, sortDescBy,
        List.insertionSort, List.orderedInsert, keyDescRel]
      decide)
  exact ⟨h.2.1, h.2.2.2.2.2⟩
